import Mathlib

/-!
Verification of the EMIT-Data-Resources notebooks.

This file shallowly embeds the two notebooks of the repository:

* the CMR-search notebook (`src/unnamed/part_000`): DOI → concept-id
  resolution, the paginated granule search loop, per-granule parsing of
  links / cloud cover / polygon geometry, the dataframe pipeline that
  filters assets and writes `emit_asset_urls.txt`, and the exact parameter
  dictionaries of the three search requests (point, bounding box,
  shapefile);
* the reflectance tutorial
  (`src/tutorials/01_Exploring_EMIT_L2A_Reflectance.ipynb`): the cell
  sequence as a straight-line program over a variable environment (for the
  `del` statements), the `-0.01 → NaN` water-absorption masking, and the
  `gamma_adjust` scaling function.

Python strings are Lean `String`s; where character-level splitting
matters we work on `String.data` with an explicit splitting function
mirroring Python's `str.split(sep)` for a one-character separator.
Missing JSON fields are `Option`; NaN-capable numpy scalars are an
explicit inductive with a `nan` constructor (rationals stand for the
finite floats, which is faithful for the order/equality reasoning the
claims need).
-/

namespace EMIT

/-! ### Character-list utilities (Python `str.split(sep)`, `in`, `join`) -/

/-- Split a character list at every occurrence of the separator `c`,
mirroring Python's `s.split(sep)` for a single-character `sep`:
`"".split(" ") = [""]`, consecutive separators yield empty pieces. -/
def splitOnChar (c : Char) : List Char → List (List Char)
  | [] => [[]]
  | a :: rest =>
    if a = c then [] :: splitOnChar c rest
    else
      match splitOnChar c rest with
      | [] => [[a]]
      | h :: t => (a :: h) :: t

/-- Python's substring test `pat in s` on character lists. -/
def containsSeg (s pat : List Char) : Bool :=
  match s with
  | [] => pat.isEmpty
  | _ :: t => pat.isPrefixOf s || containsSeg t pat

/-- Python's substring test `pat in s` on strings. -/
def strContainsSub (s pat : String) : Bool :=
  containsSeg s.data pat.data

/-- `pairUp [a, b, c, d, e] = [(a, b), (c, d)]`: the effect of
`zip(i, i)` on a single iterator `i` in Python — consecutive elements are
paired and a final unpaired element is dropped. -/
def pairUp {α : Type} : List α → List (α × α)
  | a :: b :: rest => (a, b) :: pairUp rest
  | _ => []

theorem splitOnChar_ne_nil (c : Char) (s : List Char) : splitOnChar c s ≠ [] := by
  induction s with
  | nil => simp [splitOnChar]
  | cons a rest ih =>
    simp only [splitOnChar]
    split
    · simp
    · cases h : splitOnChar c rest with
      | nil => simp
      | cons h t => simp

theorem mem_splitOnChar_no_sep (c : Char) (s : List Char) :
    ∀ t ∈ splitOnChar c s, c ∉ t := by
  induction s with
  | nil => simp [splitOnChar]
  | cons a rest ih =>
    simp only [splitOnChar]
    split
    · intro t ht
      rcases List.mem_cons.1 ht with h | h
      · simp [h]
      · exact ih t h
    · rename_i hac
      cases h : splitOnChar c rest with
      | nil => exact absurd h (splitOnChar_ne_nil c rest)
      | cons hh tt =>
        intro t ht
        rcases List.mem_cons.1 ht with h1 | h1
        · subst h1
          intro hmem
          rcases List.mem_cons.1 hmem with h2 | h2
          · exact hac h2.symm
          · exact ih hh (h ▸ List.mem_cons_self hh tt) h2
        · exact ih t (h ▸ List.mem_cons.2 (Or.inr h1))

theorem splitOnChar_append_sep (c : Char) (a b : List Char) (ha : c ∉ a) :
    splitOnChar c (a ++ c :: b) = a :: splitOnChar c b := by
  induction a with
  | nil => simp [splitOnChar]
  | cons x xs ih =>
    have hxc : x ≠ c := fun h => ha (h ▸ List.mem_cons_self x xs)
    have hca : c ∉ xs := fun h => ha (List.mem_cons.2 (Or.inr h))
    simp only [List.cons_append, splitOnChar, hxc, if_false, List.append_eq, ih hca]

theorem splitOnChar_no_sep (c : Char) (a : List Char) (ha : c ∉ a) :
    splitOnChar c a = [a] := by
  induction a with
  | nil => simp [splitOnChar]
  | cons x xs ih =>
    have hxc : x ≠ c := fun h => ha (h ▸ List.mem_cons_self x xs)
    have hca : c ∉ xs := fun h => ha (List.mem_cons.2 (Or.inr h))
    simp only [splitOnChar, hxc, if_false, ih hca]

/-! ### CMR granule search notebook: data model

A granule entry of the `granules.json` response, as far as the notebook
reads it: its `links` (each with an `href`), its `cloud_cover` string, and
its optional `polygons` field.  In the CMR JSON, `polygons` is a list of
lists of strings and the notebook reads `poly[0]` of each element. -/

/-- One element of a granule's `links` list; the notebook only reads
`x['href']`. -/
structure Link where
  href : String
deriving DecidableEq, Repr

/-- A granule entry of the `granules.json` response, restricted to the
fields the notebook reads.  `polygons = none` models absence of the
`'polygons'` key. -/
structure Granule where
  links : List Link
  cloud_cover : String
  polygons : Option (List (List String))
deriving DecidableEq, Repr

/-- The link filter of the notebook:
`'https' in href and '.nc' in href and '.dmrpp' not in href`. -/
def linkKept (x : Link) : Bool :=
  strContainsSub x.href "https" && strContainsSub x.href ".nc" &&
    !strContainsSub x.href ".dmrpp"

/-- `granule_urls`: hrefs of the kept links, in link order. -/
def granuleUrls (g : Granule) : List String :=
  (g.links.filter linkKept).map Link.href

/-- One ring of vertices as the notebook builds it from a polygon string:
split on single spaces, re-join consecutive token pairs with a space
(`zip(i, i)` plus `" ".join`), then for each joined pair `p` output the
vertex `[float(p.split(" ")[1]), float(p.split(" ")[0])]`.  Numbers are
kept as their source tokens (the float conversion is a per-token
bijection on the wire tokens and plays no role in the ordering claims);
the out-of-range index accesses of the Python code cannot occur on joined
pairs, so `getD` with a default is exact here. -/
def polyRing (s : String) : List (List Char × List Char) :=
  let toks := splitOnChar ' ' s.data
  let ltln := (pairUp toks).map (fun pr => pr.1 ++ ' ' :: pr.2)
  ltln.map (fun p => ((splitOnChar ' ' p).getD 1 [], (splitOnChar ' ' p).getD 0 []))

/-- The geometry stored in a granule row: the empty string when the
granule has no `'polygons'` key, otherwise the shapely `MultiPolygon`
value (one ring of vertices per `polygons` element). -/
inductive Geom where
  | emptyStr : Geom
  | multiPoly : List (List (List Char × List Char)) → Geom
deriving DecidableEq, Repr

/-- `granule_poly` of one granule: `''` without a `'polygons'` key,
otherwise `MultiPolygon` over `polyRing (poly[0])` for each element
`poly` of the `polygons` list (`headD` stands for the `[0]` access, which
the code only reaches on non-empty elements). -/
def granulePoly (g : Granule) : Geom :=
  match g.polygons with
  | none => Geom.emptyStr
  | some ps => Geom.multiPoly (ps.map (fun poly => polyRing (poly.headD "")))

/-- The record the loop appends for one granule:
`[granule_urls, cloud_cover, granule_poly]`. -/
structure Row where
  granule_urls : List String
  cloud_cover : String
  granule_poly : Geom
deriving DecidableEq, Repr

/-- Parsing of one granule into the appended record. -/
def parseGranule (g : Granule) : Row :=
  { granule_urls := granuleUrls g
    cloud_cover := g.cloud_cover
    granule_poly := granulePoly g }

/-! ### The specification-side description of ring parsing (claim C3)

The claim describes the parsed ring as: pair up the space-separated
tokens, swap each `(lat, lon)` wire pair into a `(lon, lat)` vertex,
dropping a final unpaired token. -/

/-- Ring parsing as the specification words it: consecutive token pairs
of the space-split string, each swapped from `(lat, lon)` to
`(lon, lat)`; an odd final token is dropped by the pairing. -/
def specRing (s : String) : List (List Char × List Char) :=
  (pairUp (splitOnChar ' ' s.data)).map (fun pr => (pr.2, pr.1))

theorem pairUp_mem {α : Type} :
    ∀ (l : List α) (a b : α), (a, b) ∈ pairUp l → a ∈ l ∧ b ∈ l
  | [], _, _, h => by simp [pairUp] at h
  | [_], _, _, h => by simp [pairUp] at h
  | x :: y :: rest, a, b, h => by
    simp only [pairUp, List.mem_cons] at h
    rcases h with h | h
    · rw [Prod.mk.injEq] at h
      simp [h.1, h.2]
    · have := pairUp_mem rest a b h
      simp [this.1, this.2]

theorem polyRing_eq_specRing (s : String) : polyRing s = specRing s := by
  simp only [polyRing, specRing, List.map_map]
  refine List.map_congr_left (fun pr hpr => ?_)
  obtain ⟨a, b⟩ := pr
  have hm := pairUp_mem _ a b hpr
  have ha : ' ' ∉ a := mem_splitOnChar_no_sep ' ' s.data a hm.1
  have hb : ' ' ∉ b := mem_splitOnChar_no_sep ' ' s.data b hm.2
  simp only [Function.comp_apply]
  rw [splitOnChar_append_sep ' ' a b ha, splitOnChar_no_sep ' ' b hb]
  rfl

/-! ### The pagination loop

The notebook's `while True` loop: request page `page_num`, and if the
returned entry list is non-empty, append one parsed record per granule
and move to `page_num + 1`; on the first empty entry list, break.  The
endpoint is modelled as a function `pages` from page number to entry
list; `fuel` bounds the number of iterations so the function is total
(any fuel past the first empty page gives the loop's actual behaviour).
The first component of the result is the sequence of requested page
numbers, one entry per HTTP request issued; the second is the
accumulated `granule_arr`. -/

def cmrLoop (pages : Nat → List Granule) : Nat → Nat → List Nat × List Row
  | 0, _ => ([], [])
  | fuel + 1, page_num =>
    let granules := pages page_num
    if granules = [] then ([page_num], [])
    else
      let rest := cmrLoop pages fuel (page_num + 1)
      (page_num :: rest.1, granules.map parseGranule ++ rest.2)

theorem cmrLoop_spec (pages : Nat → List Granule) (k : Nat) (hk : pages k = []) :
    ∀ (fuel start : Nat), start ≤ k → k - start < fuel →
    (∀ j, start ≤ j → j < k → pages j ≠ []) →
    cmrLoop pages fuel start =
      (List.range' start (k - start + 1),
       ((List.range' start (k - start)).map
         (fun p => (pages p).map parseGranule)).flatten) := by
  intro fuel
  induction fuel with
  | zero => intro start _ hfuel _; omega
  | succ fuel ih =>
    intro start hstart hfuel hne
    rcases Nat.eq_or_lt_of_le hstart with heq | hlt
    · subst heq
      simp [cmrLoop, hk]
    · have hps : pages start ≠ [] := hne start le_rfl hlt
      have h1 : k - start = (k - (start + 1)) + 1 := by omega
      have hrec := ih (start + 1) hlt (by omega)
        (fun j hj1 hj2 => hne j (by omega) hj2)
      simp only [cmrLoop, hps, if_false]
      rw [hrec, h1]
      simp [List.range'_succ]

theorem cmrLoop_rows_mem (pages : Nat → List Granule) :
    ∀ (fuel start : Nat) (r : Row), r ∈ (cmrLoop pages fuel start).2 →
    ∃ j g, start ≤ j ∧ g ∈ pages j ∧ r = parseGranule g := by
  intro fuel
  induction fuel with
  | zero => intro start r hr; simp [cmrLoop] at hr
  | succ fuel ih =>
    intro start r hr
    by_cases hps : pages start = []
    · simp [cmrLoop, hps] at hr
    · simp only [cmrLoop, hps, if_false, List.mem_append, List.mem_map] at hr
      rcases hr with ⟨g, hg, rfl⟩ | hr
      · exact ⟨start, g, le_rfl, hg, rfl⟩
      · obtain ⟨j, g, hj, hg, rfl⟩ := ih (start + 1) r hr
        exact ⟨j, g, by omega, hg, rfl⟩

/-! ### The dataframe pipeline and the saved URL file

`cmr_results_df` is built from `granule_arr` with columns
`asset_url, cloud_cover, granule_poly`, rows with `granule_poly == ''`
are dropped, the `asset_url` list column is exploded to one URL per row,
an `asset_name` column (the last `/`-separated segment of the URL) is
inserted at the front, the table is filtered to names containing
`'_RFL_'` or `'MASK'`, and the `asset_url` column is written with
`index=False, header=False` — one URL per line, no header, no index. -/

/-- A row of `cmr_results_df` as first constructed (before exploding):
columns `asset_url` (list of URLs), `cloud_cover`, `granule_poly`. -/
structure DfRow where
  asset_url : List String
  cloud_cover : String
  granule_poly : Geom
deriving DecidableEq, Repr

/-- `pd.DataFrame(granule_arr, columns=["asset_url", "cloud_cover",
"granule_poly"])`. -/
def mkCmrResultsDf (arr : List Row) : List DfRow :=
  arr.map (fun r =>
    { asset_url := r.granule_urls
      cloud_cover := r.cloud_cover
      granule_poly := r.granule_poly })

/-- `cmr_results_df[cmr_results_df['granule_poly'] != '']`: a shapely
geometry object never equals `''`, so exactly the empty-string rows are
dropped. -/
def dropEmptyGeom (df : List DfRow) : List DfRow :=
  df.filter (fun r => decide (r.granule_poly ≠ Geom.emptyStr))

/-- A row after `explode('asset_url')`: one URL per row. -/
structure XRow where
  asset_url : String
  cloud_cover : String
  granule_poly : Geom
deriving DecidableEq, Repr

/-- `cmr_results_df.explode('asset_url')` for rows whose URL list is
non-empty (pandas turns an empty list into a single NaN row; the theorems
about this step assume every kept row has at least one URL, which makes
this equation exact). -/
def explodeAssetUrl (df : List DfRow) : List XRow :=
  (df.map (fun r => r.asset_url.map (fun u =>
    { asset_url := u
      cloud_cover := r.cloud_cover
      granule_poly := r.granule_poly : XRow }))).flatten

/-- The final `/`-separated segment of a URL:
`asset_url.str.split('/', n=-1).str.get(-1)`. -/
def lastSlashSeg (url : String) : String :=
  String.mk ((splitOnChar '/' url.data).getLastD [])

/-- A row after `insert(0, 'asset_name', ...)`. -/
structure NRow where
  asset_name : String
  asset_url : String
  cloud_cover : String
  granule_poly : Geom
deriving DecidableEq, Repr

/-- Insertion of the `asset_name` column computed from `asset_url`. -/
def insertAssetName (df : List XRow) : List NRow :=
  df.map (fun r =>
    { asset_name := lastSlashSeg r.asset_url
      asset_url := r.asset_url
      cloud_cover := r.cloud_cover
      granule_poly := r.granule_poly })

/-- The asset filter:
`asset_name.str.contains('_RFL_') | asset_name.str.contains('MASK')`. -/
def assetKept (name : String) : Bool :=
  strContainsSub name "_RFL_" || strContainsSub name "MASK"

/-- `cmr_results_df[... contains '_RFL_' | ... contains 'MASK']`. -/
def filterAssets (df : List NRow) : List NRow :=
  df.filter (fun r => assetKept r.asset_name)

/-- `to_csv(..., columns=['asset_url'], index=False, header=False)`: the
`asset_url` value of every row in table order, one per line, with no
header line and no index column (the URLs contain no characters that CSV
quoting would alter). -/
def toCsvLinesAssetUrl (df : List NRow) : List String :=
  df.map NRow.asset_url

/-- `keep='first'` duplicate dropping on the `asset_url` column, the
semantics of `drop_duplicates(subset=['asset_url'])`. -/
def dropDupAux : List String → List NRow → List NRow
  | _, [] => []
  | seen, r :: rest =>
    if r.asset_url ∈ seen then dropDupAux seen rest
    else r :: dropDupAux (r.asset_url :: seen) rest

/-- The state after the final notebook cell: `cmr_results_dfs` is
assigned `cmr_results_df[:-1].drop_duplicates(subset=['asset_url'])`,
while the file written is `cmr_results_df.to_csv(...)` of the
*unmodified* table. -/
structure SaveCellResult where
  cmr_results_dfs : List NRow
  fileLines : List String
deriving DecidableEq, Repr

/-- The final cell: the dedup result goes to the new name
`cmr_results_dfs`; the write uses `cmr_results_df` itself. -/
def saveCell (df : List NRow) : SaveCellResult :=
  { cmr_results_dfs := dropDupAux [] df.dropLast
    fileLines := toCsvLinesAssetUrl df }

/-- The whole post-loop pipeline from `granule_arr` to the lines of
`emit_asset_urls.txt`. -/
def resultsTable (arr : List Row) : List NRow :=
  filterAssets (insertAssetName (explodeAssetUrl (dropEmptyGeom (mkCmrResultsDf arr))))

/-- Lines of `../data/emit_asset_urls.txt`. -/
def pipelineLines (arr : List Row) : List String :=
  (saveCell (resultsTable arr)).fileLines

theorem mem_granuleUrls (g : Granule) (url : String) (h : url ∈ granuleUrls g) :
    ∃ x ∈ g.links, linkKept x = true ∧ url = x.href := by
  simp only [granuleUrls, List.mem_map, List.mem_filter] at h
  obtain ⟨x, ⟨hx, hk⟩, rfl⟩ := h
  exact ⟨x, hx, hk, rfl⟩

theorem mem_resultsTable (arr : List Row) (n : NRow) (h : n ∈ resultsTable arr) :
    n.asset_name = lastSlashSeg n.asset_url ∧ assetKept n.asset_name = true ∧
    ∃ r ∈ arr, n.asset_url ∈ r.granule_urls ∧ r.granule_poly ≠ Geom.emptyStr := by
  simp only [resultsTable, filterAssets, List.mem_filter] at h
  obtain ⟨hmem, hkept⟩ := h
  simp only [insertAssetName, List.mem_map] at hmem
  obtain ⟨x, hx, rfl⟩ := hmem
  refine ⟨rfl, hkept, ?_⟩
  simp only [explodeAssetUrl, List.mem_flatten, List.mem_map] at hx
  obtain ⟨_, ⟨d, hd, rfl⟩, hu⟩ := hx
  simp only [List.mem_map] at hu
  obtain ⟨u, hu, heq⟩ := hu
  simp only [dropEmptyGeom, List.mem_filter, decide_eq_true_eq] at hd
  obtain ⟨hd, hpoly⟩ := hd
  simp only [mkCmrResultsDf, List.mem_map] at hd
  obtain ⟨r, hr, rfl⟩ := hd
  refine ⟨r, hr, ?_, hpoly⟩
  have hxu : x.asset_url = u := by rw [← heq]
  rw [hxu]
  simpa using hu

theorem mem_pipelineLines (arr : List Row) (url : String) (h : url ∈ pipelineLines arr) :
    assetKept (lastSlashSeg url) = true ∧
    ∃ r ∈ arr, url ∈ r.granule_urls := by
  simp only [pipelineLines, saveCell, toCsvLinesAssetUrl, List.mem_map] at h
  obtain ⟨n, hn, rfl⟩ := h
  obtain ⟨hname, hkept, r, hr, hurl, _⟩ := mem_resultsTable arr n hn
  exact ⟨hname ▸ hkept, r, hr, hurl⟩

/-! ### The CMR request parameter dictionaries

The notebook issues POSTs to `granules.json` with a parameter dictionary
holding `collection_concept_id`, `page_size` (the constant 2000),
`page_num`, `temporal`, and exactly one spatial constraint; the shapefile
search carries no in-dictionary spatial key but a `simplify-shapefile`
parameter together with a multipart file upload.  Numeric literals the
code stringifies (`str(lon)` etc.) are modelled by their printed
strings. -/

/-- The Python `datetime` fields the notebook formats; hour, minute and
second default to 0 as in `dt.datetime(2022, 9, 3)`. -/
structure PyDateTime where
  year : Nat
  month : Nat
  day : Nat
  hour : Nat := 0
  minute : Nat := 0
  second : Nat := 0
deriving DecidableEq, Repr

/-- Zero-padding to two digits, the behaviour of `%m`, `%d`, `%H`, `%M`,
`%S`. -/
def pad2 (n : Nat) : String :=
  if n < 10 then "0" ++ toString n else toString n

/-- Zero-padding to four digits, the behaviour of `%Y`. -/
def pad4 (n : Nat) : String :=
  if n < 10 then "000" ++ toString n
  else if n < 100 then "00" ++ toString n
  else if n < 1000 then "0" ++ toString n
  else toString n

/-- `strftime('%Y-%m-%dT%H:%M:%SZ')`. -/
def strftimeZ (d : PyDateTime) : String :=
  pad4 d.year ++ "-" ++ pad2 d.month ++ "-" ++ pad2 d.day ++ "T" ++
    pad2 d.hour ++ ":" ++ pad2 d.minute ++ ":" ++ pad2 d.second ++ "Z"

/-- `temporal_str`: start and end joined by a comma. -/
def temporalStr (s e : PyDateTime) : String :=
  strftimeZ s ++ "," ++ strftimeZ e

/-- The CMR API base URL of the notebook. -/
def cmrurl : String := "https://cmr.earthdata.nasa.gov/search/"

/-- `granulesearch = cmrurl + 'granules.json'`. -/
def granuleSearchUrl : String := cmrurl ++ "granules.json"

/-- `page_size = 2000  # CMR page size limit`. -/
def pageSize : Nat := 2000

/-- `point_str = str(lon) + ',' + str(lat)`. -/
def pointStr (lon lat : String) : String := lon ++ "," ++ lat

/-- `bound_str = ','.join(map(str, bound))` for the 4-tuple
`(west, south, east, north)`. -/
def boundStr (w s e n : String) : String :=
  String.intercalate "," [w, s, e, n]

/-- One part of a `files=` multipart upload (field name, filename, MIME
type; the body is opaque to the claims). -/
structure FilePart where
  field : String
  filename : String
  mime : String
deriving DecidableEq, Repr

/-- An HTTP request as the notebook assembles it for `requests.post` /
`requests.get`. -/
structure CmrRequest where
  url : String
  httpMethod : String
  data : List (String × String)
  files : List FilePart
deriving DecidableEq, Repr

/-- The point-search request of one loop iteration. -/
def pointRequest (concept_id : String) (page_num : Nat) (temporal point : String) :
    CmrRequest :=
  { url := granuleSearchUrl
    httpMethod := "POST"
    data := [("collection_concept_id", concept_id),
             ("page_size", toString pageSize),
             ("page_num", toString page_num),
             ("temporal", temporal),
             ("point", point)]
    files := [] }

/-- The bounding-box request of one loop iteration. -/
def bboxRequest (concept_id : String) (page_num : Nat) (temporal bound : String) :
    CmrRequest :=
  { url := granuleSearchUrl
    httpMethod := "POST"
    data := [("collection_concept_id", concept_id),
             ("page_size", toString pageSize),
             ("page_num", toString page_num),
             ("temporal", temporal),
             ("bounding_box[]", bound)]
    files := [] }

/-- The shapefile request of one loop iteration:
`simplify-shapefile` in the dictionary, the geojson as a multipart
upload, and no in-dictionary spatial key. -/
def shapefileRequest (concept_id : String) (page_num : Nat) (temporal : String) :
    CmrRequest :=
  { url := granuleSearchUrl
    httpMethod := "POST"
    data := [("collection_concept_id", concept_id),
             ("page_size", toString pageSize),
             ("page_num", toString page_num),
             ("temporal", temporal),
             ("simplify-shapefile", "true")]
    files := [⟨"shapefile", "isla_gaviota.geojson", "application/geo+json"⟩] }

/-! ### Concept-id resolution from the DOI -/

/-- One element of the `entry` list of the `collections.json` response;
the notebook reads only `['id']`. -/
structure CollEntry where
  id : String
deriving DecidableEq, Repr

/-- The `feed` object of the `collections.json` response. -/
structure Feed where
  entry : List CollEntry
deriving DecidableEq, Repr

/-- The `collections.json` response body. -/
structure CollectionsResponse where
  feed : Feed
deriving DecidableEq, Repr

/-- `doisearch = cmrurl + 'collections.json?doi=' + doi`. -/
def doiSearchUrl (doi : String) : String :=
  cmrurl ++ "collections.json?doi=" ++ doi

/-- The single `requests.get(doisearch)` issued for resolution. -/
def doiRequest (doi : String) : CmrRequest :=
  { url := doiSearchUrl doi
    httpMethod := "GET"
    data := []
    files := [] }

/-- `concept_id = response['feed']['entry'][0]['id']`, partial in Python
(`[0]` raises on an empty list), hence `Option`-valued here. -/
def conceptIdOf (resp : CollectionsResponse) : Option String :=
  resp.feed.entry.head?.map CollEntry.id

/-! ### The reflectance tutorial as a straight-line program

For the `del`-statement claim, the cell sequence of
`01_Exploring_EMIT_L2A_Reflectance.ipynb` is embedded as a list of
statements over a variable environment: each assignment records the
target name, the names its right-hand side reads, and an opaque operation
identifier; each expression-statement (display / plot) records the names
it reads; each `del` records the deleted name.  The semantics is
parametric in the interpretation of the opaque operations, so the
theorems hold for every behaviour of the underlying libraries. -/

/-- A notebook statement: an assignment (target, names read by the
right-hand side, opaque operation id), a displayed expression (names
read, opaque operation id), or a `del`. -/
inductive Stmt where
  | assign : String → List String → Nat → Stmt
  | show_ : List String → Nat → Stmt
  | del : String → Stmt
deriving DecidableEq, Repr

/-- First binding of a name in the environment (Python name lookup). -/
def lookupEnv {V : Type} (env : List (String × V)) (x : String) : Option V :=
  match env with
  | [] => none
  | (y, v) :: rest => if y = x then some v else lookupEnv rest x

/-- Read a list of names; `none` as soon as one is unbound
(Python `NameError`). -/
def readAll {V : Type} (env : List (String × V)) : List String → Option (List V)
  | [] => some []
  | x :: xs =>
    match lookupEnv env x with
    | none => none
    | some v =>
      match readAll env xs with
      | none => none
      | some vs => some (v :: vs)

/-- Remove every binding of a name (`del x`). -/
def removeEnv {V : Type} (x : String) (env : List (String × V)) : List (String × V) :=
  env.filter (fun p => decide (p.1 ≠ x))

/-- Run the program, returning the final environment and the trace of
every value computed by an assignment or displayed expression, in order.
`del` of an unbound name is an error (`NameError`), as in Python. -/
def evalProg {V : Type} (interp : Nat → List V → V) :
    List Stmt → List (String × V) → Option (List (String × V) × List V)
  | [], env => some (env, [])
  | Stmt.assign t rs op :: rest, env =>
    match readAll env rs with
    | none => none
    | some vs =>
      match evalProg interp rest ((t, interp op vs) :: env) with
      | none => none
      | some (e, tr) => some (e, interp op vs :: tr)
  | Stmt.show_ rs op :: rest, env =>
    match readAll env rs with
    | none => none
    | some vs =>
      match evalProg interp rest env with
      | none => none
      | some (e, tr) => some (e, interp op vs :: tr)
  | Stmt.del x :: rest, env =>
    match lookupEnv env x with
    | none => none
    | some _ => evalProg interp rest (removeEnv x env)

/-- Drop every `del` statement. -/
def eraseDels : List Stmt → List Stmt :=
  List.filter (fun s => match s with | Stmt.del _ => false | _ => true)

/-- Does the statement read the name `x`? -/
def readsName (x : String) : Stmt → Bool
  | Stmt.assign _ rs _ => rs.contains x
  | Stmt.show_ rs _ => rs.contains x
  | Stmt.del _ => false

/-- Does the statement (re)bind the name `x`? -/
def bindsName (x : String) : Stmt → Bool
  | Stmt.assign t _ _ => t == x
  | _ => false

/-- No statement of the list reads `x` before the first statement that
rebinds `x` (reads on an assignment's right-hand side happen before its
binding). -/
def noReadBeforeBind (x : String) : List Stmt → Bool
  | [] => true
  | s :: rest =>
    if readsName x s then false
    else if bindsName x s then true
    else noReadBeforeBind x rest

/-- Every `del` in the program deletes a name that is never read again
before being rebound. -/
def delsOk : List Stmt → Bool
  | [] => true
  | Stmt.del x :: rest => noReadBeforeBind x rest && delsOk rest
  | _ :: rest => delsOk rest

/-- The cell sequence of the reflectance tutorial, in notebook order.
Operation ids are arbitrary distinct tags for the library calls; read
sets list the variables each right-hand side mentions (closures such as
`point_spectra` read `ds_geo`; the in-place masking assignments read and
rebind `ds` / `ds_geo`). -/
def reflNotebook : List Stmt :=
  [Stmt.assign "fp" [] 0,                       -- fp = '../data/EMIT_...nc'
   Stmt.assign "ds" ["fp"] 1,                   -- ds = nc.Dataset(fp)
   Stmt.show_ ["ds"] 2,                         -- ds
   Stmt.show_ ["ds"] 3,                         -- ds.groups.keys()
   Stmt.assign "refl" ["fp"] 4,                 -- refl = xr.open_dataset(fp)
   Stmt.show_ ["refl"] 5,                       -- refl
   Stmt.assign "wvl" ["fp"] 6,                  -- wvl = xr.open_dataset(fp, group='sensor_band_parameters')
   Stmt.show_ ["wvl"] 7,                        -- wvl
   Stmt.assign "loc" ["fp"] 8,                  -- loc = xr.open_dataset(fp, group='location')
   Stmt.show_ ["loc"] 9,                        -- loc
   Stmt.assign "ds" ["refl", "loc"] 10,         -- ds = xr.merge([refl, loc])
   Stmt.show_ ["ds"] 11,                        -- ds
   Stmt.assign "ds" ["ds", "refl", "wvl"] 12,   -- ds = ds.assign_coords({... refl ..., **wvl.variables})
   Stmt.show_ ["ds"] 13,                        -- ds
   Stmt.del "refl",                             -- del refl
   Stmt.del "wvl",                              -- del wvl
   Stmt.del "loc",                              -- del loc
   Stmt.assign "example" ["ds"] 14,             -- example = ds['reflectance'].sel(...)
   Stmt.show_ ["example"] 15,                   -- example.hvplot.line(...)
   Stmt.assign "ds" ["ds"] 16,                  -- ds['reflectance'].data[... == -0.01] = np.nan
   Stmt.show_ ["ds"] 17,                        -- ds[...].sel(...).hvplot.line(...)
   Stmt.assign "b850" ["ds"] 18,                -- b850 = np.nanargmin(abs(ds['wavelengths'].values-850))
   Stmt.show_ ["b850"] 19,                      -- b850
   Stmt.show_ ["ds", "b850"] 20,                -- ds.sel(bands=b850).hvplot.image(...)
   Stmt.assign "loc" ["fp"] 21,                 -- loc = xr.open_dataset(fp, group='location')
   Stmt.show_ ["loc"] 22,                       -- loc
   Stmt.del "loc",                              -- del loc
   Stmt.del "example",                          -- del example
   Stmt.assign "ds_geo" ["fp"] 23,              -- ds_geo = emit_xarray(fp, ortho=True)
   Stmt.show_ ["ds_geo"] 24,                    -- ds_geo
   Stmt.assign "b850" ["ds_geo"] 25,            -- b850 = np.nanargmin(abs(ds_geo[...]-850))
   Stmt.show_ ["ds_geo", "ds", "b850"] 26,      -- ds_geo.isel(...) + ds.sel(...)
   Stmt.show_ ["ds_geo", "b850"] 27,            -- ds_geo.isel(...).hvplot.image(... tiles ...)
   Stmt.assign "ds_geo" ["ds_geo"] 28,          -- ds_geo['reflectance'].data[... == -0.01] = np.nan
   Stmt.assign "point" ["ds_geo"] 29,           -- point = ds_geo.sel(..., method='nearest')
   Stmt.show_ ["point"] 30,                     -- point.hvplot.line(...)
   Stmt.assign "b650" ["ds_geo"] 31,            -- b650 = ...
   Stmt.assign "b560" ["ds_geo"] 32,            -- b560 = ...
   Stmt.assign "b470" ["ds_geo"] 33,            -- b470 = ...
   Stmt.assign "r" ["ds_geo", "b650"] 34,       -- r = gamma_adjust(ds_geo, b650)
   Stmt.assign "g" ["ds_geo", "b560"] 35,       -- g = gamma_adjust(ds_geo, b560)
   Stmt.assign "b" ["ds_geo", "b470"] 36,       -- b = gamma_adjust(ds_geo, b470)
   Stmt.assign "rgb" ["r", "g", "b"] 37,        -- rgb = np.stack([r, g, b])
   Stmt.assign "bds" [] 38,                     -- bds = np.array([0, 1, 2])
   Stmt.assign "x" ["ds_geo"] 39,               -- x = ds_geo['longitude'].values
   Stmt.assign "y" ["ds_geo"] 40,               -- y = ds_geo['latitude'].values
   Stmt.assign "ds_rgb" ["rgb", "bds", "x", "y", "ds_geo"] 41,  -- ds_rgb = xr.Dataset(...)
   Stmt.show_ ["ds_rgb"] 42,                    -- ds_rgb
   Stmt.assign "map" ["ds_rgb"] 43,             -- map = ds_rgb.hvplot.rgb(...)
   Stmt.assign "posxy" ["map"] 44,              -- posxy = hv.streams.PointerXY(source=map, ...)
   Stmt.assign "clickxy" ["map"] 45,            -- clickxy = hv.streams.Tap(source=map, ...)
   Stmt.assign "point_dmap" ["ds_geo", "posxy"] 46,   -- hv.DynamicMap(point_spectra, streams=[posxy])
   Stmt.assign "click_dmap" ["ds_geo", "clickxy"] 47, -- hv.DynamicMap(click_spectra, streams=[clickxy])
   Stmt.show_ ["map", "click_dmap", "point_dmap"] 48] -- (map + click_dmap*point_dmap)

/-! ### Water-absorption masking (`-0.01 → NaN`)

`ds['reflectance'].data[ds['reflectance'].data == -0.01] = np.nan`
replaces exactly the entries comparing equal to `-0.01` with NaN; a NaN
entry compares unequal to everything, so it is untouched.  Reflectance
values are modelled as `Option ℚ` with `none` for NaN: IEEE equality with
the constant `-0.01` is equality of stored values for non-NaN entries and
false for NaN entries, which is exactly the `Option` equality used
here. -/

/-- One application of the masking assignment to a reflectance array. -/
def maskRefl (a : List (Option ℚ)) : List (Option ℚ) :=
  a.map (fun v => if v = some (-1/100) then none else v)

/-! ### `gamma_adjust`

`np.power(array, gamma)` can produce NaN (negative base, NaN input) or
`inf` (zero base with negative exponent, overflow); the claim only
depends on what `.clip(0, 1)` and `np.nan_to_num(..., nan=1)` do
afterwards, so the power step is an arbitrary per-entry function.  numpy
scalars are modelled by an inductive with `nan`, the two infinities and
finite values. -/

/-- A numpy floating scalar for the purposes of `clip`/`nan_to_num`:
NaN, `inf`, `-inf`, or a finite value. -/
inductive NpVal where
  | nan : NpVal
  | inf : NpVal
  | ninf : NpVal
  | val : ℚ → NpVal
deriving DecidableEq, Repr

/-- `.clip(0, 1)` on one entry: NaN propagates, infinities clamp to the
bounds, finite values clamp into `[0, 1]`. -/
def clip01 : NpVal → NpVal
  | NpVal.nan => NpVal.nan
  | NpVal.inf => NpVal.val 1
  | NpVal.ninf => NpVal.val 0
  | NpVal.val q => NpVal.val (max 0 (min 1 q))

/-- The largest finite IEEE double (`1.7976931348623157e308`, exactly
`2 ^ 1024 - 2 ^ 971`), which `np.nan_to_num` substitutes for `inf` by
default. -/
def floatMaxAbs : ℚ := 2 ^ 1024 - 2 ^ 971

/-- `np.nan_to_num(x, nan=1)` on one entry: NaN becomes 1; with the
default `posinf`/`neginf`, infinities become the extreme finite floats
(an opaque large constant here — after `clip` none remain). -/
def nanToNum1 : NpVal → NpVal
  | NpVal.nan => NpVal.val 1
  | NpVal.inf => NpVal.val floatMaxAbs
  | NpVal.ninf => NpVal.val (-floatMaxAbs)
  | NpVal.val q => NpVal.val q

/-- `gamma_adjust` from the band selection on: raise every entry to the
gamma exponent (`power`, an arbitrary per-entry function covering
whatever `np.power` produces), clip into `[0, 1]`, then replace NaN by
1. -/
def gammaAdjust (power : NpVal → NpVal) (array : List NpVal) : List NpVal :=
  ((array.map power).map clip01).map nanToNum1

/-- Is the entry a finite value in `[0, 1]` (in particular, not NaN)? -/
def inUnitInterval : NpVal → Bool
  | NpVal.val q => decide (0 ≤ q ∧ q ≤ 1)
  | _ => false

/-! ### Concrete inputs used to instantiate the theorems -/

/-- A concrete granule: two kept links (`_RFL_` and `MASK` assets), one
`.dmrpp` link and one `s3://` link that the link filter drops, and a
polygon string with an odd number of tokens. -/
def wGranule : Granule :=
  { links := [⟨"https://data.host/EMIT_L2A_RFL_001.nc"⟩,
              ⟨"https://data.host/EMIT_L2A_RFL_001.nc.dmrpp"⟩,
              ⟨"s3://data.host/EMIT_L2A_RFL_001.nc"⟩,
              ⟨"https://data.host/EMIT_L2A_MASK_001.nc"⟩]
    cloud_cover := "82"
    polygons := some [["1.5 2.5 3.5 4.5 9.9"]] }

/-- A concrete endpooint: one non-empty page, empty from page 2 on. -/
def wPages : Nat → List Granule :=
  fun n => if n = 1 then [wGranule] else []

end EMIT

namespace EMIT

/-- Claim C1: with the endpoint returning its first empty entry list at
page `k` (every earlier page from 1 on being non-empty), the search loop
issues exactly the requests for pages `1, 2, ..., k` — one request per
page number, in strictly increasing order — stops at the empty page, and
`granule_arr` is the in-order concatenation of one parsed record per
granule over the non-empty pages `1, ..., k - 1`.  Any iteration budget
of at least `k` exhibits the loop's behaviour. -/
theorem c1_pagination_loop (pages : Nat → List Granule) (k fuel : Nat)
    (hk1 : 1 ≤ k) (hk : pages k = [])
    (hne : ∀ j, 1 ≤ j → j < k → pages j ≠ [])
    (hfuel : k ≤ fuel) :
    (cmrLoop pages fuel 1).1 = List.range' 1 k ∧
    List.Pairwise (· < ·) (cmrLoop pages fuel 1).1 ∧
    (cmrLoop pages fuel 1).2 =
      ((List.range' 1 (k - 1)).map (fun p => (pages p).map parseGranule)).flatten := by
  have h := cmrLoop_spec pages k hk fuel 1 hk1 (by omega) hne
  have hk' : k - 1 + 1 = k := by omega
  rw [h, hk']
  exact ⟨rfl, List.pairwise_lt_range' 1 k, rfl⟩

theorem c1_pagination_loop_witness :
    (cmrLoop wPages 2 1).1 = List.range' 1 2 ∧
    List.Pairwise (· < ·) (cmrLoop wPages 2 1).1 ∧
    (cmrLoop wPages 2 1).2 =
      ((List.range' 1 (2 - 1)).map (fun p => (wPages p).map parseGranule)).flatten :=
  c1_pagination_loop wPages 2 2 (by decide) (by decide)
    (fun j h1 h2 => by
      have hj : j = 1 := by omega
      subst hj
      decide)
    (by decide)

/-- Claim C3: a granule with no `'polygons'` field gets the empty string
as its geometry; a granule with a `'polygons'` field whose elements each
hold a first string gets a `MultiPolygon` with one ring per element,
whose vertex sequence is exactly the consecutive token pairs of the
space-split string in original order, each swapped from wire order
`(lat, lon)` to geometry order `(lon, lat)`, a final unpaired token
being discarded. -/
theorem c3_polygon_parsing (g : Granule) :
    (g.polygons = none → granulePoly g = Geom.emptyStr) ∧
    (∀ ps, g.polygons = some ps → (∀ poly ∈ ps, poly ≠ []) →
      granulePoly g =
        Geom.multiPoly (ps.map (fun poly => specRing (poly.headD "")))) := by
  constructor
  · intro h
    simp [granulePoly, h]
  · intro ps h _
    simp [granulePoly, h, polyRing_eq_specRing]

theorem c3_polygon_parsing_witness :
    granulePoly wGranule =
      Geom.multiPoly [[("2.5".data, "1.5".data), ("4.5".data, "3.5".data)]] := by
  have h := (c3_polygon_parsing wGranule).2 [["1.5 2.5 3.5 4.5 9.9"]] rfl
    (by intro poly hp; simp at hp; simp [hp])
  rw [h]
  decide

/-- Claim C5: the concept ID is resolved by a single GET of
`collections.json?doi=<doi>`, and for every response whose `entry` list
under `feed` is non-empty, resolution succeeds and returns the `id`
field of the first entry. -/
theorem c5_concept_id (doi : String) :
    (doiRequest doi).httpMethod = "GET" ∧
    (doiRequest doi).url = cmrurl ++ "collections.json?doi=" ++ doi ∧
    (doiRequest doi).data = [] ∧ (doiRequest doi).files = [] ∧
    ∀ (resp : CollectionsResponse) (e : CollEntry) (rest : List CollEntry),
      resp.feed.entry = e :: rest → conceptIdOf resp = some e.id := by
  refine ⟨rfl, rfl, rfl, rfl, ?_⟩
  intro resp e rest h
  simp [conceptIdOf, h]

theorem c5_concept_id_witness :
    conceptIdOf ⟨⟨[⟨"C2408750690-LPCLOUD"⟩, ⟨"C0000000000-OTHER"⟩]⟩⟩ =
      some "C2408750690-LPCLOUD" :=
  (c5_concept_id "10.5067/EMIT/EMITL2ARFL.001").2.2.2.2
    ⟨⟨[⟨"C2408750690-LPCLOUD"⟩, ⟨"C0000000000-OTHER"⟩]⟩⟩
    ⟨"C2408750690-LPCLOUD"⟩ [⟨"C0000000000-OTHER"⟩] rfl

/-- Claim C6: every record ever appended to `granule_arr` is the triple
`(asset URL list, cloud cover, polygon geometry)` parsed from some
delivered granule, with the cloud cover taken verbatim from the
granule's `'cloud_cover'` field; hence every row of the dataframe built
from `granule_arr` (before exploding) has exactly these three fields. -/
theorem c6_row_shape (pages : Nat → List Granule) (fuel start : Nat) :
    (∀ r ∈ (cmrLoop pages fuel start).2,
      ∃ j g, g ∈ pages j ∧
        r = ⟨granuleUrls g, g.cloud_cover, granulePoly g⟩ ∧
        r.cloud_cover = g.cloud_cover) ∧
    (∀ d ∈ mkCmrResultsDf (cmrLoop pages fuel start).2,
      ∃ j g, g ∈ pages j ∧
        d = ⟨granuleUrls g, g.cloud_cover, granulePoly g⟩) := by
  constructor
  · intro r hr
    obtain ⟨j, g, _, hg, rfl⟩ := cmrLoop_rows_mem pages fuel start r hr
    exact ⟨j, g, hg, rfl, rfl⟩
  · intro d hd
    simp only [mkCmrResultsDf, List.mem_map] at hd
    obtain ⟨r, hr, rfl⟩ := hd
    obtain ⟨j, g, _, hg, rfl⟩ := cmrLoop_rows_mem pages fuel start r hr
    exact ⟨j, g, hg, rfl⟩

theorem c6_row_shape_witness :
    ∃ j g, g ∈ wPages j ∧
      (⟨granuleUrls wGranule, "82", granulePoly wGranule⟩ : Row) =
        ⟨granuleUrls g, g.cloud_cover, granulePoly g⟩ ∧
      (⟨granuleUrls wGranule, "82", granulePoly wGranule⟩ : Row).cloud_cover =
        g.cloud_cover :=
  (c6_row_shape wPages 2 1).1 ⟨granuleUrls wGranule, "82", granulePoly wGranule⟩
    (by decide)

/-- Claim C2: the text file written to `emit_asset_urls.txt` holds, in
table order, one asset URL per line — no header, no index column —
namely the `asset_url` of every results-table row whose asset name
contains the substring `'_RFL_'` or `'MASK'`; every such row's
`asset_name` is the final `/`-separated segment of its URL, and every
written URL is the `href` of a link of some delivered granule containing
`'https'` and `'.nc'` but not `'.dmrpp'`.  The hypothesis that every
appended record has at least one URL keeps the list model of
`explode('asset_url')` exact (pandas would turn an empty list into a NaN
row, on which the later `.str` filtering does not produce a written
URL). -/
theorem c2_asset_url_file (pages : Nat → List Granule) (fuel start : Nat)
    (hurls : ∀ r ∈ (cmrLoop pages fuel start).2, r.granule_urls ≠ []) :
    pipelineLines ((cmrLoop pages fuel start).2) =
      (resultsTable ((cmrLoop pages fuel start).2)).map NRow.asset_url ∧
    (∀ n ∈ resultsTable ((cmrLoop pages fuel start).2),
      n.asset_name = lastSlashSeg n.asset_url ∧ assetKept n.asset_name = true) ∧
    ∀ url ∈ pipelineLines ((cmrLoop pages fuel start).2),
      assetKept (lastSlashSeg url) = true ∧
      ∃ j g x, g ∈ pages j ∧ x ∈ g.links ∧ linkKept x = true ∧ url = x.href := by
  refine ⟨rfl, ?_, ?_⟩
  · intro n hn
    obtain ⟨h1, h2, _⟩ := mem_resultsTable _ n hn
    exact ⟨h1, h2⟩
  · intro url hurl
    obtain ⟨hkept, r, hr, hu⟩ := mem_pipelineLines _ url hurl
    obtain ⟨j, g, _, hg, rfl⟩ := cmrLoop_rows_mem pages fuel start r hr
    obtain ⟨x, hx, hk, rfl⟩ := mem_granuleUrls g url (by simpa [parseGranule] using hu)
    exact ⟨hkept, j, g, x, hg, hx, hk, rfl⟩

theorem c2_asset_url_file_witness :
    assetKept (lastSlashSeg "https://data.host/EMIT_L2A_RFL_001.nc") = true ∧
    ∃ j g x, g ∈ wPages j ∧ x ∈ g.links ∧ linkKept x = true ∧
      "https://data.host/EMIT_L2A_RFL_001.nc" = x.href :=
  (c2_asset_url_file wPages 2 1 (by decide)).2.2
    "https://data.host/EMIT_L2A_RFL_001.nc" (by decide)

/-- Claim C4: every granule search request is a POST to `granules.json`
whose parameters are exactly `collection_concept_id`, `page_size`
(encoded from the constant 2000), `page_num`, `temporal` (start and end
formatted with the CMR datetime format and joined by a comma — checked
against the notebook's printed output), and exactly one spatial
constraint: a `point` of the form `lon,lat`, a `bounding_box[]` of the
form `west,south,east,north`, or a multipart shapefile upload with a
`simplify-shapefile` parameter and no in-dictionary spatial key. -/
theorem c4_request_params (cid : String) (pn : Nat) (sdt edt : PyDateTime)
    (lon lat w s e n : String) :
    (pointRequest cid pn (temporalStr sdt edt) (pointStr lon lat)).url =
      cmrurl ++ "granules.json" ∧
    (bboxRequest cid pn (temporalStr sdt edt) (boundStr w s e n)).url =
      cmrurl ++ "granules.json" ∧
    (shapefileRequest cid pn (temporalStr sdt edt)).url =
      cmrurl ++ "granules.json" ∧
    (pointRequest cid pn (temporalStr sdt edt) (pointStr lon lat)).httpMethod = "POST" ∧
    (bboxRequest cid pn (temporalStr sdt edt) (boundStr w s e n)).httpMethod = "POST" ∧
    (shapefileRequest cid pn (temporalStr sdt edt)).httpMethod = "POST" ∧
    (pointRequest cid pn (temporalStr sdt edt) (pointStr lon lat)).data.map Prod.fst =
      ["collection_concept_id", "page_size", "page_num", "temporal", "point"] ∧
    (bboxRequest cid pn (temporalStr sdt edt) (boundStr w s e n)).data.map Prod.fst =
      ["collection_concept_id", "page_size", "page_num", "temporal", "bounding_box[]"] ∧
    (shapefileRequest cid pn (temporalStr sdt edt)).data.map Prod.fst =
      ["collection_concept_id", "page_size", "page_num", "temporal", "simplify-shapefile"] ∧
    (pointRequest cid pn (temporalStr sdt edt) (pointStr lon lat)).data.lookup "page_size" =
      some "2000" ∧
    (pointRequest cid pn (temporalStr sdt edt) (pointStr lon lat)).data.lookup "temporal" =
      some (strftimeZ sdt ++ "," ++ strftimeZ edt) ∧
    (pointRequest cid pn (temporalStr sdt edt) (pointStr lon lat)).data.lookup "point" =
      some (lon ++ "," ++ lat) ∧
    (bboxRequest cid pn (temporalStr sdt edt) (boundStr w s e n)).data.lookup "bounding_box[]" =
      some (String.intercalate "," [w, s, e, n]) ∧
    (pointRequest cid pn (temporalStr sdt edt) (pointStr lon lat)).data.lookup "bounding_box[]" =
      none ∧
    (pointRequest cid pn (temporalStr sdt edt) (pointStr lon lat)).data.lookup
      "simplify-shapefile" = none ∧
    (pointRequest cid pn (temporalStr sdt edt) (pointStr lon lat)).files = [] ∧
    (bboxRequest cid pn (temporalStr sdt edt) (boundStr w s e n)).data.lookup "point" = none ∧
    (bboxRequest cid pn (temporalStr sdt edt) (boundStr w s e n)).data.lookup
      "simplify-shapefile" = none ∧
    (bboxRequest cid pn (temporalStr sdt edt) (boundStr w s e n)).files = [] ∧
    (shapefileRequest cid pn (temporalStr sdt edt)).data.lookup "point" = none ∧
    (shapefileRequest cid pn (temporalStr sdt edt)).data.lookup "bounding_box[]" = none ∧
    (shapefileRequest cid pn (temporalStr sdt edt)).data.lookup "simplify-shapefile" =
      some "true" ∧
    (shapefileRequest cid pn (temporalStr sdt edt)).files =
      [⟨"shapefile", "isla_gaviota.geojson", "application/geo+json"⟩] ∧
    temporalStr ⟨2022, 9, 3, 0, 0, 0⟩ ⟨2022, 9, 3, 23, 23, 59⟩ =
      "2022-09-03T00:00:00Z,2022-09-03T23:23:59Z" := by
  and_intros <;> rfl

/-- Claim C7: in the reflectance tutorial, every `del` deletes a name
that is never read again before being rebound (`delsOk`), and
consequently — for every behaviour of the opaque library operations —
erasing the `del` statements changes neither any computed value (the
evaluation trace), nor the success of the run, nor the datasets `ds` and
`ds_geo` every later value is built from. -/
theorem c7_del_statements :
    delsOk reflNotebook = true ∧
    ∀ (V : Type) (interp : Nat → List V → V),
      (evalProg interp reflNotebook []).map Prod.snd =
        (evalProg interp (eraseDels reflNotebook) []).map Prod.snd ∧
      (evalProg interp reflNotebook []).isSome = true ∧
      (evalProg interp reflNotebook []).map (fun p => lookupEnv p.1 "ds") =
        (evalProg interp (eraseDels reflNotebook) []).map (fun p => lookupEnv p.1 "ds") ∧
      (evalProg interp reflNotebook []).map (fun p => lookupEnv p.1 "ds_geo") =
        (evalProg interp (eraseDels reflNotebook) []).map (fun p => lookupEnv p.1 "ds_geo") :=
  ⟨by decide, fun V interp => ⟨rfl, rfl, rfl, rfl⟩⟩

/-- Claim C8: the duplicate-removal line assigns
`cmr_results_df[:-1].drop_duplicates(subset=['asset_url'])` to the new
name `cmr_results_dfs`, while the file is written from the unmodified
`cmr_results_df`; so the written lines are always the full `asset_url`
column — duplicates retained, final row included — and on tables with
duplicates they differ from what writing the deduplicated table would
produce. -/
theorem c8_dedup_no_effect :
    (∀ df : List NRow, (saveCell df).fileLines = toCsvLinesAssetUrl df) ∧
    (∀ df : List NRow, (saveCell df).fileLines.getLast? =
      (df.map NRow.asset_url).getLast?) ∧
    (∃ df : List NRow, toCsvLinesAssetUrl (saveCell df).cmr_results_dfs ≠
      (saveCell df).fileLines) := by
  refine ⟨fun df => rfl, fun df => rfl, ?_⟩
  refine ⟨[⟨"a.nc", "https://h/a.nc", "82", Geom.emptyStr⟩,
           ⟨"a.nc", "https://h/a.nc", "82", Geom.emptyStr⟩,
           ⟨"b.nc", "https://h/b.nc", "82", Geom.emptyStr⟩], ?_⟩
  decide

/-- Claim C9: the water-absorption masking assignment sends exactly the
entries equal to `-0.01` to NaN, leaves every other entry — including
entries already NaN — unchanged, and is idempotent. -/
theorem c9_masking (a : List (Option ℚ)) :
    (∀ (i : Nat) (v : Option ℚ), a[i]? = some v → v = some (-1/100) →
      (maskRefl a)[i]? = some none) ∧
    (∀ (i : Nat) (v : Option ℚ), a[i]? = some v → v ≠ some (-1/100) →
      (maskRefl a)[i]? = some v) ∧
    maskRefl (maskRefl a) = maskRefl a := by
  refine ⟨?_, ?_, ?_⟩
  · intro i v hi hv
    simp [maskRefl, List.getElem?_map, hi, hv]
  · intro i v hi hv
    simp [maskRefl, List.getElem?_map, hi, hv]
  · simp only [maskRefl, List.map_map]
    refine List.map_congr_left (fun v _ => ?_)
    by_cases hv : v = some (-1/100) <;> simp [hv]

theorem c9_masking_witness :
    (maskRefl [some (-1/100), some (1/2), none])[0]? = some none ∧
    (maskRefl [some (-1/100), some (1/2), none])[1]? = some (some (1/2)) ∧
    (maskRefl [some (-1/100), some (1/2), none])[2]? = some none :=
  ⟨(c9_masking [some (-1/100), some (1/2), none]).1 0 (some (-1/100)) rfl rfl,
   (c9_masking [some (-1/100), some (1/2), none]).2.1 1 (some (1/2)) rfl (by norm_num),
   (c9_masking [some (-1/100), some (1/2), none]).2.1 2 none rfl (by simp)⟩

/-- Claim C10: whatever `np.power` returns entry-wise (NaN and
infinities included), after `.clip(0, 1)` and `np.nan_to_num(..., nan=1)`
every entry of the array `gamma_adjust` returns is a finite value in
`[0, 1]` — in particular no NaN remains. -/
theorem c10_gamma_adjust (power : NpVal → NpVal) (array : List NpVal) :
    (gammaAdjust power array).all inUnitInterval = true := by
  simp only [gammaAdjust, List.all_eq_true]
  intro v hv
  simp only [List.map_map, List.mem_map] at hv
  obtain ⟨z, _, rfl⟩ := hv
  simp only [Function.comp_apply]
  cases power z with
  | nan => decide
  | inf => decide
  | ninf => decide
  | val q =>
    simp only [clip01, nanToNum1, inUnitInterval, decide_eq_true_eq]
    constructor
    · exact le_max_left 0 _
    · exact max_le (by norm_num) (min_le_left 1 q)

end EMIT
